import Mathlib

/-!
Shallow embedding of the village-machaan reservation backend
(`src/pages/Homepage.j02vc.js` — `ReservationService`;
`src/backend/webMethods.js`; `src/backend/http-functions.js`;
`src/backend/collections.js`).

Dates/timestamps are modelled as `Int` milliseconds since the epoch, in a
timezone-offset-free setting (so `setHours(0,0,0,0)` is flooring to the
nearest lower multiple of a day). The Wix data store is modelled as lists
of records; `wixData.get`/`query`/`insert`/`bulkInsert`/`update` become
list lookup, filter, and append/map operations.
-/

namespace VillageMachaan

/-- One day in milliseconds (`1000 * 3600 * 24` in the source). -/
def dayMs : Int := 86400000

/-- JavaScript `Math.ceil(a / b)` for integer `a` and positive integer `b`:
the ceiling of the rational `a / b`, via `-floor(-a / b)`. -/
def ceilDiv (a b : Int) : Int := -((-a) / b)

/-- Model of `date.setHours(0, 0, 0, 0)`: floor the timestamp to midnight
(the nearest lower multiple of `dayMs`). -/
def floorDay (t : Int) : Int := dayMs * (t / dayMs)

/-- Cottage record (`Cottages` collection); fields used by the core logic. -/
structure Cottage where
  id : String
  maxAdults : Int
  maxChildren : Int
  basePricePerNight : Int
  isActive : Bool
  deriving Repr, DecidableEq

/-- Package record (`Packages` collection); fields used by the core logic. -/
structure Package where
  id : String
  price : Int
  isActive : Bool
  deriving Repr, DecidableEq

/-- Booking record (`Bookings` collection) as persisted by
`ReservationService.createBooking`. -/
structure Booking where
  id : String
  cottageId : String
  packageId : String
  checkInDate : Int
  checkOutDate : Int
  adults : Int
  children : Int
  customerInfo : String
  specialRequests : String
  totalCost : Int
  status : String
  paymentStatus : String
  createdDate : Int
  updatedDate : Int
  deriving Repr, DecidableEq

/-- Availability record (`Availability` collection): one row per
(cottageId, date) written by `updateAvailability`. -/
structure AvailabilityRecord where
  cottageId : String
  date : Int
  isAvailable : Bool
  bookingId : Option String
  createdDate : Int
  updatedDate : Int
  deriving Repr, DecidableEq

/-- Safari booking record (`SafariBookings` collection). -/
structure SafariBooking where
  bookingId : String
  safariDate : Int
  safariTime : String
  status : String
  safariType : String
  createdDate : Int
  updatedDate : Int
  deriving Repr, DecidableEq

/-- The Wix data store: one list per collection the core logic touches. -/
structure DB where
  cottages : List Cottage
  packages : List Package
  bookings : List Booking
  availability : List AvailabilityRecord
  safariBookings : List SafariBooking
  deriving Repr, DecidableEq

/-- Input object accepted by `ReservationService.createBooking`
(`bookingData` in the source). -/
structure BookingData where
  cottageId : String
  packageId : String
  checkInDate : Int
  checkOutDate : Int
  adults : Int
  children : Int
  customerInfo : String
  specialRequests : String
  deriving Repr, DecidableEq

/-- Result object returned by `ReservationService.checkAvailability`. -/
structure AvailabilityResult where
  isAvailable : Bool
  conflictingDates : List Int
  cottage : Option Cottage
  message : String
  deriving Repr, DecidableEq

/-- The predicate of the availability query in `checkAvailability`:
`eq cottageId ∧ gte date startDate ∧ lt date endDate ∧ eq isAvailable false`. -/
def conflictPred (cottageId : String) (startDate endDate : Int)
    (r : AvailabilityRecord) : Bool :=
  decide (r.cottageId = cottageId ∧ startDate ≤ r.date ∧ r.date < endDate ∧
    r.isAvailable = false)

/-- `ReservationService.checkAvailability(cottageId, checkInDate, checkOutDate)`:
floor both bounds to midnight, query unavailable records for the cottage with
date in `[start, end)`; if any exist the range is unavailable; otherwise the
cottage must exist and be active. -/
def checkAvailability (db : DB) (cottageId : String)
    (checkInDate checkOutDate : Int) : AvailabilityResult :=
  let startDate := floorDay checkInDate
  let endDate := floorDay checkOutDate
  let conflicting := db.availability.filter (conflictPred cottageId startDate endDate)
  if conflicting.length > 0 then
    { isAvailable := false
      conflictingDates := conflicting.map (fun r => r.date)
      cottage := none
      message := "Selected dates are not available for this cottage." }
  else
    match db.cottages.find? (fun c => c.id == cottageId) with
    | none =>
        { isAvailable := false, conflictingDates := [], cottage := none
          message := "Cottage not found or inactive." }
    | some cottage =>
        if cottage.isActive then
          { isAvailable := true, conflictingDates := [], cottage := some cottage
            message := "Cottage is available for selected dates." }
        else
          { isAvailable := false, conflictingDates := [], cottage := none
            message := "Cottage not found or inactive." }

/-- `ReservationService.calculateNights(checkIn, checkOut)`:
`Math.ceil((checkOut - checkIn) / (1000*3600*24))` on the raw timestamps.
The identical helper appears in `ReservationForm.js`. -/
def calculateNights (checkIn checkOut : Int) : Int :=
  ceilDiv (checkOut - checkIn) dayMs

/-- The loop `for (date = start; date < end; date.setDate(date.getDate()+1))`
in `updateAvailability`, as a fuel-indexed recursion; `fuel` bounds the number
of remaining iterations. -/
def dayRangeAux (fuel : Nat) (start endE : Int) : List Int :=
  match fuel with
  | 0 => []
  | Nat.succ f =>
      if start < endE then start :: dayRangeAux f (start + dayMs) endE else []

/-- The list of day timestamps visited by the `updateAvailability` loop:
`start, start + 1 day, ...` while `< endE`. -/
def dayRange (start endE : Int) : List Int :=
  dayRangeAux (endE - start).toNat start endE

/-- `ReservationService.updateAvailability(cottageId, startDate, endDate,
bookingId, isAvailable)`: build one availability record per day in
`[start, end)` and bulk-insert them. -/
def updateAvailability (db : DB) (cottageId : String) (startDate endDate : Int)
    (bookingId : String) (isAvailable : Bool) (now : Int) : DB :=
  let availabilityRecords := (dayRange startDate endDate).map (fun date =>
    { cottageId := cottageId
      date := date
      isAvailable := isAvailable
      bookingId := if isAvailable then none else some bookingId
      createdDate := now
      updatedDate := now : AvailabilityRecord })
  { db with availability := db.availability ++ availabilityRecords }

/-- `ReservationService.getPackageById(packageId)`: `wixData.get` on the
`Packages` collection; a missing id surfaces as the caught
"Package not found" error. -/
def getPackageById (db : DB) (packageId : String) : Except String Package :=
  match db.packages.find? (fun p => p.id == packageId) with
  | some p => .ok p
  | none => .error "Package not found"

/-- `ReservationService.createBooking(bookingData)`: fetch the cottage,
validate the adult count, price the stay, insert the booking with
status/paymentStatus `Pending`, then reserve the range via
`updateAvailability`. Errors are thrown before any insert, so the error
branches return the store unchanged. -/
def createBooking (db : DB) (bookingData : BookingData) (newId : String)
    (now : Int) : Except String Booking × DB :=
  match db.cottages.find? (fun c => c.id == bookingData.cottageId) with
  | none => (.error "Cottage not found", db)
  | some cottage =>
    if bookingData.adults > cottage.maxAdults then
      (.error "Maximum adults allowed per cottage", db)
    else
      match getPackageById db bookingData.packageId with
      | .error e => (.error e, db)
      | .ok packageData =>
        let nights := calculateNights bookingData.checkInDate bookingData.checkOutDate
        let roomCost := cottage.basePricePerNight * nights
        let packageCost := packageData.price
        let totalCost := roomCost + packageCost
        let booking : Booking :=
          { id := newId
            cottageId := bookingData.cottageId
            packageId := bookingData.packageId
            checkInDate := bookingData.checkInDate
            checkOutDate := bookingData.checkOutDate
            adults := bookingData.adults
            children := bookingData.children
            customerInfo := bookingData.customerInfo
            specialRequests := bookingData.specialRequests
            totalCost := totalCost
            status := "Pending"
            paymentStatus := "Pending"
            createdDate := now
            updatedDate := now }
        let db1 : DB := { db with bookings := db.bookings ++ [booking] }
        let db2 := updateAvailability db1 bookingData.cottageId
          bookingData.checkInDate bookingData.checkOutDate newId false now
        (.ok booking, db2)

/-- `ReservationService.updateBookingStatus(bookingId, status)`: overwrite
status and updatedDate of the matching booking, unconditionally. -/
def updateBookingStatus (db : DB) (bookingId : String) (status : String)
    (now : Int) : DB :=
  { db with bookings := db.bookings.map (fun b =>
      if b.id == bookingId then { b with status := status, updatedDate := now }
      else b) }

/-- One entry of the `safariData` array passed to `createSafariBookings`;
`type` is optional in the source, defaulted via logical-or to Standard. -/
structure SafariEntry where
  date : Int
  time : String
  type : Option String
  deriving Repr, DecidableEq

/-- JavaScript `s || dflt` on an optional string: the default is used when
the field is absent or the empty string (both falsy). -/
def jsOrString (s : Option String) (dflt : String) : String :=
  match s with
  | none => dflt
  | some v => if v = "" then dflt else v

/-- `ReservationService.createSafariBookings(bookingId, safariData)`: map each
entry to a `SafariBooking` with status `Pending` and `safariType` defaulted to
`"Standard"`, and bulk-insert them. Returns the created records and the new
store. -/
def createSafariBookings (db : DB) (bookingId : String)
    (safariData : List SafariEntry) (now : Int) : List SafariBooking × DB :=
  let safariBookings := safariData.map (fun safari =>
    { bookingId := bookingId
      safariDate := safari.date
      safariTime := safari.time
      status := "Pending"
      safariType := jsOrString safari.type "Standard"
      createdDate := now
      updatedDate := now : SafariBooking })
  (safariBookings, { db with safariBookings := db.safariBookings ++ safariBookings })

/-- Cost breakdown returned by the `calculateBookingCost` web method. -/
structure CostBreakdown where
  roomCost : Int
  packageCost : Int
  totalCost : Int
  nights : Int
  costPerNight : Int
  deriving Repr, DecidableEq

/-- `calculateBookingCost` web method (`webMethods.js`): look up cottage and
package, then price the stay with `calculateNights`. -/
def calculateBookingCost (db : DB) (cottageId packageId : String)
    (checkInDate checkOutDate : Int) : Except String CostBreakdown :=
  match db.cottages.find? (fun c => c.id == cottageId),
        db.packages.find? (fun p => p.id == packageId) with
  | some cottage, some packageData =>
    let nights := calculateNights checkInDate checkOutDate
    let roomCost := cottage.basePricePerNight * nights
    let packageCost := packageData.price
    .ok { roomCost := roomCost
          packageCost := packageCost
          totalCost := roomCost + packageCost
          nights := nights
          costPerNight := cottage.basePricePerNight }
  | _, _ => .error "Cottage or package not found"

/-- The `createBooking` web method (`webMethods.js`, mirrored by
`post_createBooking` in `http-functions.js`): check availability for the
requested range first; if unavailable, fail without touching the store;
otherwise delegate to `ReservationService.createBooking`. -/
def webCreateBooking (db : DB) (bookingData : BookingData) (newId : String)
    (now : Int) : Except String Booking × DB :=
  let availability := checkAvailability db bookingData.cottageId
    bookingData.checkInDate bookingData.checkOutDate
  if availability.isAvailable then
    createBooking db bookingData newId now
  else
    (.error "Selected dates are not available for this cottage", db)

/-- The membership predicate "availability record of this cottage with date in
[startDate, endDate)", used to count the records a booking reserves. -/
def inRangePred (cottageId : String) (startDate endDate : Int)
    (r : AvailabilityRecord) : Bool :=
  decide (r.cottageId = cottageId ∧ startDate ≤ r.date ∧ r.date < endDate)

/-- Modelled from the spec: `nights(checkIn, checkOut) =
ceil((checkOut - checkIn) / 1 day)` "computed on UTC day boundaries after
zeroing time components" — both timestamps are floored to midnight before
subtracting. Stated for comparison with the code-side `calculateNights`,
which subtracts the raw timestamps without zeroing. -/
def nightsSpec (checkIn checkOut : Int) : Int :=
  ceilDiv (floorDay checkOut - floorDay checkIn) dayMs

/-- A store with one active cottage `c1` (2 adults max, 100 per night) and
one active package `p1` (flat price 50), and no bookings or availability
records; the concrete state used by witnesses. -/
def demoDB : DB :=
  { cottages := [{ id := "c1", maxAdults := 2, maxChildren := 2,
                   basePricePerNight := 100, isActive := true }]
    packages := [{ id := "p1", price := 50, isActive := true }]
    bookings := []
    availability := []
    safariBookings := [] }

/-- A 3-night booking request for cottage `c1` over `[0, 3 days)`. -/
def demoRequest : BookingData :=
  { cottageId := "c1", packageId := "p1", checkInDate := 0,
    checkOutDate := 259200000, adults := 1, children := 0,
    customerInfo := "guest", specialRequests := "" }

/-- The booking `createBooking demoDB demoRequest "b1" 7` persists:
3 nights at 100 plus the flat package price 50. -/
def demoBooking : Booking :=
  { id := "b1", cottageId := "c1", packageId := "p1", checkInDate := 0,
    checkOutDate := 259200000, adults := 1, children := 0,
    customerInfo := "guest", specialRequests := "", totalCost := 350,
    status := "Pending", paymentStatus := "Pending", createdDate := 7,
    updatedDate := 7 }

/-- The store after `createBooking demoDB demoRequest "b1" 7`: the booking
plus one availability record per reserved day. -/
def demoDB2 : DB :=
  { demoDB with
    bookings := [demoBooking]
    availability :=
      [{ cottageId := "c1", date := 0, isAvailable := false,
         bookingId := some "b1", createdDate := 7, updatedDate := 7 },
       { cottageId := "c1", date := 86400000, isAvailable := false,
         bookingId := some "b1", createdDate := 7, updatedDate := 7 },
       { cottageId := "c1", date := 172800000, isAvailable := false,
         bookingId := some "b1", createdDate := 7, updatedDate := 7 }] }

/-- A store whose only cottage `c1` exists but is inactive, with no
availability records at all. -/
def inactiveCottageDB : DB :=
  { cottages := [{ id := "c1", maxAdults := 2, maxChildren := 2,
                   basePricePerNight := 100, isActive := false }]
    packages := []
    bookings := []
    availability := []
    safariBookings := [] }

/-- The demo store with day 0 of cottage `c1` already reserved by a previous
booking `b0`. -/
def conflictDB : DB :=
  { demoDB with
    availability := [{ cottageId := "c1", date := 0, isAvailable := false,
                       bookingId := some "b0", createdDate := 0,
                       updatedDate := 0 }] }

/-- A 1-night booking request for cottage `c1` over `[0, 1 day)`. -/
def oneNightRequest : BookingData :=
  { cottageId := "c1", packageId := "p1", checkInDate := 0,
    checkOutDate := 86400000, adults := 1, children := 0,
    customerInfo := "guest", specialRequests := "" }

/-- A request for cottage `c1` with 3 adults, above the maximum of 2. -/
def overCapacityRequest : BookingData :=
  { cottageId := "c1", packageId := "p1", checkInDate := 0,
    checkOutDate := 86400000, adults := 3, children := 0,
    customerInfo := "guest", specialRequests := "" }

/-- A request for cottage `c1` whose checkout (day 0) precedes its
check-in (day 1). -/
def invertedRequest : BookingData :=
  { cottageId := "c1", packageId := "p1", checkInDate := 86400000,
    checkOutDate := 0, adults := 1, children := 0,
    customerInfo := "guest", specialRequests := "" }

/-- Whether a service call result is a success. -/
def isOkResult (r : Except String Booking) : Bool :=
  match r with
  | .ok _ => true
  | .error _ => false

theorem dayMs_eq : dayMs = 86400000 := rfl

/-- The fuel argument of `dayRangeAux` is irrelevant once it covers the
number of remaining loop iterations. -/
theorem dayRangeAux_congr (f1 : Nat) : ∀ (f2 : Nat) (start endE : Int),
    (endE - start).toNat ≤ f1 → (endE - start).toNat ≤ f2 →
    dayRangeAux f1 start endE = dayRangeAux f2 start endE := by
  induction f1 with
  | zero =>
    intro f2 start endE h1 _
    have hlt : ¬ start < endE := by omega
    cases f2 with
    | zero => rfl
    | succ g => simp [dayRangeAux, hlt]
  | succ f ih =>
    intro f2 start endE h1 h2
    by_cases hlt : start < endE
    · cases f2 with
      | zero => omega
      | succ g =>
        simp only [dayRangeAux, if_pos hlt]
        have hd := dayMs_eq
        exact congrArg (start :: ·) (ih g (start + dayMs) endE (by omega) (by omega))
    · cases f2 with
      | zero => simp [dayRangeAux, hlt]
      | succ g => simp [dayRangeAux, hlt]

/-- The availability loop body does not run when the range is empty. -/
theorem dayRange_nil (start endE : Int) (h : ¬ start < endE) :
    dayRange start endE = [] := by
  have h0 : (endE - start).toNat = 0 := by omega
  unfold dayRange
  rw [h0]
  rfl

/-- One unfolding of the availability loop on a nonempty range. -/
theorem dayRange_cons (start endE : Int) (h : start < endE) :
    dayRange start endE = start :: dayRange (start + dayMs) endE := by
  have hd := dayMs_eq
  obtain ⟨f, hf⟩ : ∃ f, (endE - start).toNat = f + 1 := ⟨(endE - start).toNat - 1, by omega⟩
  unfold dayRange
  rw [hf]
  simp only [dayRangeAux, if_pos h]
  exact congrArg (start :: ·)
    (dayRangeAux_congr f ((endE - (start + dayMs)).toNat) (start + dayMs) endE
      (by omega) (by omega))

/-- A three-day half-open range visits exactly three days. -/
theorem dayRange_three (d0 : Int) :
    dayRange d0 (d0 + 3 * dayMs) = [d0, d0 + dayMs, d0 + dayMs + dayMs] := by
  have hd := dayMs_eq
  rw [dayRange_cons d0 _ (by omega), dayRange_cons (d0 + dayMs) _ (by omega),
    dayRange_cons (d0 + dayMs + dayMs) _ (by omega), dayRange_nil _ _ (by omega)]

/-- Flooring to midnight is the identity on midnight-aligned timestamps. -/
theorem floorDay_eq_self (t : Int) (h : t % dayMs = 0) : floorDay t = t := by
  unfold floorDay
  rw [dayMs_eq] at h ⊢
  omega

/-- C3 (counterexample): at the valid date pair checkIn = midnight of day 0,
checkOut = noon of day 0 (checkOut strictly after checkIn), the code takes the
ceiling over the raw timestamps and returns 1 night, while the claimed
formula — ceiling of the difference after zeroing both times to midnight —
yields 0, so the two disagree. -/
theorem calculateNights_zeroing_counterexample :
    (0 : Int) < 43200000 ∧
    calculateNights 0 43200000 = 1 ∧
    nightsSpec 0 43200000 = 0 ∧
    calculateNights 0 43200000 ≠ nightsSpec 0 43200000 := by decide

/-- C3 (amended): `calculateNights` is ceil((checkOut − checkIn)/86400000)
over the raw timestamps, with no zeroing of time components; on timestamps
already lying on a midnight boundary it coincides with the zeroed-time
formula of the spec. -/
theorem calculateNights_eq_spec_on_midnight (checkIn checkOut : Int)
    (h1 : checkIn % dayMs = 0) (h2 : checkOut % dayMs = 0) :
    calculateNights checkIn checkOut = nightsSpec checkIn checkOut := by
  unfold calculateNights nightsSpec
  rw [floorDay_eq_self checkIn h1, floorDay_eq_self checkOut h2]

/-- C3 (witness): 2024-06-01T00:00Z to 2024-06-04T00:00Z, both at midnight,
agree with the spec formula and give 3 nights. -/
theorem calculateNights_eq_spec_on_midnight_witness :
    calculateNights 1717200000000 1717459200000 =
      nightsSpec 1717200000000 1717459200000 ∧
    calculateNights 1717200000000 1717459200000 = 3 :=
  ⟨calculateNights_eq_spec_on_midnight 1717200000000 1717459200000
      (by decide) (by decide),
    by decide⟩

/-- C5: when the cottage exists and the requested adult count exceeds its
maximum, `createBooking` fails with the validation error and the store is
returned unchanged — no booking and no availability record is created. -/
theorem createBooking_over_capacity_rejected (db : DB) (bd : BookingData)
    (newId : String) (now : Int) (cottage : Cottage)
    (hc : db.cottages.find? (fun c => c.id == bd.cottageId) = some cottage)
    (hover : bd.adults > cottage.maxAdults) :
    createBooking db bd newId now =
      (.error "Maximum adults allowed per cottage", db) ∧
    (createBooking db bd newId now).2.bookings = db.bookings ∧
    (createBooking db bd newId now).2.availability = db.availability := by
  have h : createBooking db bd newId now =
      (.error "Maximum adults allowed per cottage", db) := by
    unfold createBooking
    rw [hc]
    simp only [if_pos hover]
  exact ⟨h, by rw [h], by rw [h]⟩

/-- C5 (witness): three adults in cottage c1 (maximum two) are rejected and
the demo store is untouched. -/
theorem createBooking_over_capacity_rejected_witness :
    createBooking demoDB overCapacityRequest "b1" 0 =
      (.error "Maximum adults allowed per cottage", demoDB) ∧
    (createBooking demoDB overCapacityRequest "b1" 0).2.bookings =
      demoDB.bookings ∧
    (createBooking demoDB overCapacityRequest "b1" 0).2.availability =
      demoDB.availability :=
  createBooking_over_capacity_rejected demoDB overCapacityRequest "b1" 0
    { id := "c1", maxAdults := 2, maxChildren := 2, basePricePerNight := 100,
      isActive := true }
    (by decide) (by decide)

/-- C6: when the availability re-check reports the requested range
unavailable, the `createBooking` web method fails with the conflict message
and returns the store unchanged — no booking record is created. -/
theorem webCreateBooking_unavailable_rejected (db : DB) (bd : BookingData)
    (newId : String) (now : Int)
    (h : (checkAvailability db bd.cottageId bd.checkInDate
        bd.checkOutDate).isAvailable = false) :
    webCreateBooking db bd newId now =
      (.error "Selected dates are not available for this cottage", db) := by
  simp [webCreateBooking, h]

/-- C6 (witness): with day 0 of cottage c1 already reserved, a one-night
request over [day 0, day 1) is rejected at the re-check and the store is
unchanged. -/
theorem webCreateBooking_unavailable_rejected_witness :
    (checkAvailability conflictDB oneNightRequest.cottageId
      oneNightRequest.checkInDate oneNightRequest.checkOutDate).isAvailable
      = false ∧
    webCreateBooking conflictDB oneNightRequest "b1" 0 =
      (.error "Selected dates are not available for this cottage",
        conflictDB) :=
  ⟨by decide,
    webCreateBooking_unavailable_rejected conflictDB oneNightRequest "b1" 0
      (by decide)⟩

/-- C7: updating a booking status twice in succession with the same status
yields exactly the final state of the second update alone, and no record is
created or deleted in the process. -/
theorem updateBookingStatus_idempotent (db : DB) (bookingId status : String)
    (t1 t2 : Int) :
    updateBookingStatus (updateBookingStatus db bookingId status t1)
        bookingId status t2 =
      updateBookingStatus db bookingId status t2 ∧
    (updateBookingStatus (updateBookingStatus db bookingId status t1)
        bookingId status t2).bookings.length = db.bookings.length := by
  constructor
  · simp only [updateBookingStatus, List.map_map, DB.mk.injEq, true_and,
      and_true]
    apply List.map_congr_left
    intro b _
    by_cases hb : b.id == bookingId
    · simp [Function.comp, hb]
    · simp [Function.comp, hb]
  · simp [updateBookingStatus]

/-- C7 (witness): confirming booking b1 twice on the demo store after its
3-night booking gives the same state as confirming once. -/
theorem updateBookingStatus_idempotent_witness :
    updateBookingStatus (updateBookingStatus demoDB2 "b1" "Confirmed" 8)
        "b1" "Confirmed" 9 =
      updateBookingStatus demoDB2 "b1" "Confirmed" 9 ∧
    (updateBookingStatus (updateBookingStatus demoDB2 "b1" "Confirmed" 8)
        "b1" "Confirmed" 9).bookings.length = demoDB2.bookings.length :=
  updateBookingStatus_idempotent demoDB2 "b1" "Confirmed" 8 9

/-- C8: `createSafariBookings` inserts exactly one safari record per entry —
the store grows by exactly the created list — and each created record carries
the given bookingId, the date and time slot of its entry, status Pending,
and safariType Standard whenever the entry omits its type. -/
theorem createSafariBookings_one_per_entry (db : DB) (bookingId : String)
    (safariData : List SafariEntry) (now : Int) :
    (createSafariBookings db bookingId safariData now).1.length =
      safariData.length ∧
    (createSafariBookings db bookingId safariData now).2.safariBookings =
      db.safariBookings ++ (createSafariBookings db bookingId safariData now).1 ∧
    List.Forall₂ (fun (safari : SafariEntry) (sb : SafariBooking) =>
        sb.bookingId = bookingId ∧ sb.safariDate = safari.date ∧
        sb.safariTime = safari.time ∧ sb.status = "Pending" ∧
        (safari.type = none → sb.safariType = "Standard"))
      safariData (createSafariBookings db bookingId safariData now).1 := by
  refine ⟨by simp [createSafariBookings], by simp [createSafariBookings], ?_⟩
  unfold createSafariBookings
  simp only [List.forall₂_map_right_iff]
  refine List.forall₂_same.mpr (fun safari _ => ?_)
  refine ⟨?_, ?_, ?_, ?_, fun h => ?_⟩ <;> simp [jsOrString, *]

/-- C8 (witness): a single entry {date := 5, time := Morning} with no type
creates exactly one Pending safari booking for b1 with type Standard. -/
theorem createSafariBookings_one_per_entry_witness :
    (createSafariBookings demoDB "b1" [⟨5, "Morning", none⟩] 9).1.length =
      ([⟨5, "Morning", none⟩] : List SafariEntry).length ∧
    (createSafariBookings demoDB "b1" [⟨5, "Morning", none⟩] 9).2.safariBookings =
      demoDB.safariBookings ++
        (createSafariBookings demoDB "b1" [⟨5, "Morning", none⟩] 9).1 ∧
    List.Forall₂ (fun (safari : SafariEntry) (sb : SafariBooking) =>
        sb.bookingId = "b1" ∧ sb.safariDate = safari.date ∧
        sb.safariTime = safari.time ∧ sb.status = "Pending" ∧
        (safari.type = none → sb.safariType = "Standard"))
      [⟨5, "Morning", none⟩]
      (createSafariBookings demoDB "b1" [⟨5, "Morning", none⟩] 9).1 :=
  createSafariBookings_one_per_entry demoDB "b1" [⟨5, "Morning", none⟩] 9

/-- An availability check reports unavailable as soon as one record of the
store matches its conflict query. -/
theorem checkAvailability_false_of_mem (db : DB) (cottageId : String)
    (checkInDate checkOutDate : Int) (r : AvailabilityRecord)
    (hr : r ∈ db.availability)
    (hpred : conflictPred cottageId (floorDay checkInDate)
      (floorDay checkOutDate) r = true) :
    (checkAvailability db cottageId checkInDate checkOutDate).isAvailable
      = false := by
  have hmem : r ∈ db.availability.filter
      (conflictPred cottageId (floorDay checkInDate) (floorDay checkOutDate)) :=
    List.mem_filter.mpr ⟨hr, hpred⟩
  simp only [checkAvailability]
  cases hf : db.availability.filter
      (conflictPred cottageId (floorDay checkInDate) (floorDay checkOutDate)) with
  | nil => rw [hf] at hmem; exact absurd hmem (List.not_mem_nil r)
  | cons x xs => simp [hf]

/-- C2 (counterexample): for the inactive cottage c1 and an empty
availability store, no unavailable record exists in [day 0, day 1), yet the
check returns isAvailable = false — the claimed equivalence fails. -/
theorem checkAvailability_iff_counterexample :
    inactiveCottageDB.availability.filter
      (conflictPred "c1" (floorDay 0) (floorDay 86400000)) = [] ∧
    (checkAvailability inactiveCottageDB "c1" 0 86400000).isAvailable
      = false := by decide

/-- C2 (amended): the check returns isAvailable = true iff no unavailable
record for the cottage has its date in the day-floored [start, end) AND the
cottage exists and is active. -/
theorem checkAvailability_true_iff (db : DB) (cottageId : String)
    (checkInDate checkOutDate : Int) :
    (checkAvailability db cottageId checkInDate checkOutDate).isAvailable
        = true ↔
      (db.availability.filter
          (conflictPred cottageId (floorDay checkInDate)
            (floorDay checkOutDate)) = [] ∧
        ∃ c, db.cottages.find? (fun x => x.id == cottageId) = some c ∧
          c.isActive = true) := by
  simp only [checkAvailability]
  cases hfilter : db.availability.filter
      (conflictPred cottageId (floorDay checkInDate) (floorDay checkOutDate)) with
  | cons r rs => simp
  | nil =>
    simp only [List.length_nil, gt_iff_lt, lt_self_iff_false, if_false,
      true_and]
    cases hfind : db.cottages.find? (fun x => x.id == cottageId) with
    | none => simp
    | some c => by_cases hact : c.isActive <;> simp [hact]

/-- C2 (witness): the amended equivalence evaluated on the demo store, where
cottage c1 is active and no record exists. -/
theorem checkAvailability_true_iff_witness :
    (checkAvailability demoDB "c1" 0 86400000).isAvailable = true ↔
      (demoDB.availability.filter
          (conflictPred "c1" (floorDay 0) (floorDay 86400000)) = [] ∧
        ∃ c, demoDB.cottages.find? (fun x => x.id == "c1") = some c ∧
          c.isActive = true) :=
  checkAvailability_true_iff demoDB "c1" 0 86400000

/-- C4: in both `createBooking` and `calculateBookingCost`, the room cost is
basePricePerNight times the computed nights, the package cost is the flat
package price (not multiplied by nights), and the total is their sum. -/
theorem bookingCost_formula (db : DB) (bd : BookingData) (newId : String)
    (now : Int) (cottage : Cottage) (packageData : Package) (b : Booking)
    (db2 : DB) (cb : CostBreakdown)
    (hc : db.cottages.find? (fun c => c.id == bd.cottageId) = some cottage)
    (hp : db.packages.find? (fun p => p.id == bd.packageId) = some packageData)
    (hok : createBooking db bd newId now = (.ok b, db2))
    (hcb : calculateBookingCost db bd.cottageId bd.packageId bd.checkInDate
        bd.checkOutDate = .ok cb) :
    b.totalCost = cottage.basePricePerNight *
        calculateNights bd.checkInDate bd.checkOutDate + packageData.price ∧
    cb.nights = calculateNights bd.checkInDate bd.checkOutDate ∧
    cb.roomCost = cottage.basePricePerNight * cb.nights ∧
    cb.packageCost = packageData.price ∧
    cb.totalCost = cb.roomCost + cb.packageCost := by
  simp only [calculateBookingCost, hc, hp] at hcb
  simp only [createBooking, hc, getPackageById, hp] at hok
  rw [Except.ok.injEq] at hcb
  subst hcb
  split at hok
  · exact absurd (congrArg Prod.fst hok) (by simp)
  · rw [Prod.mk.injEq, Except.ok.injEq] at hok
    obtain ⟨hb, _⟩ := hok
    subst hb
    exact ⟨rfl, rfl, rfl, rfl, rfl⟩

/-- C4 (witness): the cost formula evaluated for the 3-night demo booking:
3 nights at 100 plus the flat 50 gives 350. -/
theorem bookingCost_formula_witness :
    demoBooking.totalCost = 100 *
        calculateNights demoRequest.checkInDate demoRequest.checkOutDate + 50 ∧
    (CostBreakdown.mk 300 50 350 3 100).nights =
      calculateNights demoRequest.checkInDate demoRequest.checkOutDate ∧
    (CostBreakdown.mk 300 50 350 3 100).roomCost =
      100 * (CostBreakdown.mk 300 50 350 3 100).nights ∧
    (CostBreakdown.mk 300 50 350 3 100).packageCost = 50 ∧
    (CostBreakdown.mk 300 50 350 3 100).totalCost =
      (CostBreakdown.mk 300 50 350 3 100).roomCost +
        (CostBreakdown.mk 300 50 350 3 100).packageCost :=
  bookingCost_formula demoDB demoRequest "b1" 7
    { id := "c1", maxAdults := 2, maxChildren := 2, basePricePerNight := 100,
      isActive := true }
    { id := "p1", price := 50, isActive := true }
    demoBooking demoDB2 (CostBreakdown.mk 300 50 350 3 100)
    (by decide) (by decide) (by rfl) (by rfl)

/-- C10: a request that passes the adult-capacity check but has
checkOutDate ≤ checkInDate raises no error: the booking is still persisted,
the night count is nonpositive so the total cost is at most the flat package
price (for a nonnegative nightly rate), and the day-iteration loop writes
zero availability records. -/
theorem createBooking_inverted_range_persists (db : DB) (bd : BookingData)
    (newId : String) (now : Int) (cottage : Cottage) (packageData : Package)
    (hc : db.cottages.find? (fun c => c.id == bd.cottageId) = some cottage)
    (hadults : ¬ bd.adults > cottage.maxAdults)
    (hp : db.packages.find? (fun p => p.id == bd.packageId) = some packageData)
    (hdates : bd.checkOutDate ≤ bd.checkInDate)
    (hprice : 0 ≤ cottage.basePricePerNight) :
    calculateNights bd.checkInDate bd.checkOutDate ≤ 0 ∧
    ∃ b : Booking,
      createBooking db bd newId now =
        (.ok b, { db with bookings := db.bookings ++ [b] }) ∧
      b.totalCost ≤ packageData.price := by
  have hnights : calculateNights bd.checkInDate bd.checkOutDate ≤ 0 := by
    unfold calculateNights ceilDiv
    rw [dayMs_eq]
    omega
  have hrange : dayRange bd.checkInDate bd.checkOutDate = [] := by
    have hd := dayMs_eq
    exact dayRange_nil _ _ (by omega)
  have hroom : cottage.basePricePerNight *
      calculateNights bd.checkInDate bd.checkOutDate ≤ 0 :=
    mul_nonpos_of_nonneg_of_nonpos hprice hnights
  refine ⟨hnights, ?_⟩
  simp only [createBooking, hc, if_neg hadults, getPackageById, hp,
    updateAvailability, hrange, List.map_nil, List.append_nil]
  refine ⟨_, rfl, ?_⟩
  show cottage.basePricePerNight * calculateNights bd.checkInDate bd.checkOutDate
      + packageData.price ≤ packageData.price
  linarith

/-- C10 (witness): check-in on day 1 and check-out on day 0 of the demo
store still persists a booking; the nights value is negative and the total
cost -50 is below the flat package price 50, with no availability record
written. -/
theorem createBooking_inverted_range_persists_witness :
    calculateNights invertedRequest.checkInDate invertedRequest.checkOutDate
      ≤ 0 ∧
    ∃ b : Booking,
      createBooking demoDB invertedRequest "b1" 0 =
        (.ok b, { demoDB with bookings := demoDB.bookings ++ [b] }) ∧
      b.totalCost ≤ 50 :=
  createBooking_inverted_range_persists demoDB invertedRequest "b1" 0
    { id := "c1", maxAdults := 2, maxChildren := 2, basePricePerNight := 100,
      isActive := true }
    { id := "p1", price := 50, isActive := true }
    (by decide) (by decide) (by decide) (by decide) (by decide)

/-- C1: a successful `createBooking` over a midnight-aligned 3-night range
[d0, d0 + 3 days), on a store holding no availability records for that
cottage in the range, leaves exactly 3 availability records for the cottage
in the range — one per calendar day — each with isAvailable = false and
bookingId referencing the new booking, and a subsequent availability check
over the same range returns unavailable. -/
theorem createBooking_reserves_three_nights (db : DB) (bd : BookingData)
    (newId : String) (now : Int) (b : Booking) (db2 : DB)
    (halign : bd.checkInDate % dayMs = 0)
    (hdur : bd.checkOutDate = bd.checkInDate + 3 * dayMs)
    (hclean : db.availability.filter
      (inRangePred bd.cottageId bd.checkInDate bd.checkOutDate) = [])
    (hok : createBooking db bd newId now = (.ok b, db2)) :
    (db2.availability.filter
        (inRangePred bd.cottageId bd.checkInDate bd.checkOutDate)).length
      = 3 ∧
    (∀ r ∈ db2.availability.filter
        (inRangePred bd.cottageId bd.checkInDate bd.checkOutDate),
      r.isAvailable = false ∧ r.bookingId = some b.id) ∧
    (checkAvailability db2 bd.cottageId bd.checkInDate
        bd.checkOutDate).isAvailable = false := by
  have hd := dayMs_eq
  simp only [createBooking, getPackageById] at hok
  split at hok
  · simp at hok
  · split at hok
    · simp at hok
    · split at hok
      · rw [Prod.mk.injEq] at hok
        exact absurd hok.1 (by simp)
      · rw [Prod.mk.injEq, Except.ok.injEq] at hok
        obtain ⟨hb, hdb2⟩ := hok
        subst hb
        subst hdb2
        rw [hdur] at hclean ⊢
        simp only [updateAvailability, dayRange_three, List.map_cons,
          List.map_nil, Bool.false_eq_true, if_neg, if_false]
        rw [List.filter_append, hclean, List.nil_append]
        have hq1 : inRangePred bd.cottageId bd.checkInDate
            (bd.checkInDate + 3 * dayMs)
            { cottageId := bd.cottageId, date := bd.checkInDate,
              isAvailable := false, bookingId := some newId,
              createdDate := now, updatedDate := now } = true := by
          simp only [inRangePred, decide_eq_true_eq, true_and, and_true]
          first | trivial | omega
        have hq2 : inRangePred bd.cottageId bd.checkInDate
            (bd.checkInDate + 3 * dayMs)
            { cottageId := bd.cottageId, date := bd.checkInDate + dayMs,
              isAvailable := false, bookingId := some newId,
              createdDate := now, updatedDate := now } = true := by
          simp only [inRangePred, decide_eq_true_eq, true_and, and_true]
          first | trivial | omega
        have hq3 : inRangePred bd.cottageId bd.checkInDate
            (bd.checkInDate + 3 * dayMs)
            { cottageId := bd.cottageId, date := bd.checkInDate + dayMs + dayMs,
              isAvailable := false, bookingId := some newId,
              createdDate := now, updatedDate := now } = true := by
          simp only [inRangePred, decide_eq_true_eq, true_and, and_true]
          first | trivial | omega
        refine ⟨?_, ?_, ?_⟩
        · simp [List.filter_cons, hq1, hq2, hq3]
        · intro r hr
          simp only [List.filter_cons, hq1, hq2, hq3, if_true,
            List.filter_nil, List.mem_cons, List.not_mem_nil, or_false] at hr
          rcases hr with rfl | rfl | rfl <;> exact ⟨by trivial, by trivial⟩
        · refine checkAvailability_false_of_mem _ _ _ _
            { cottageId := bd.cottageId, date := bd.checkInDate,
              isAvailable := false, bookingId := some newId,
              createdDate := now, updatedDate := now } ?_ ?_
          · exact List.mem_append_right _ (List.mem_cons_self _ _)
          · rw [floorDay_eq_self _ halign,
              floorDay_eq_self _ (by rw [dayMs_eq] at halign ⊢; omega)]
            simp only [conflictPred, decide_eq_true_eq, true_and, and_true]
            first | trivial | omega

/-- C1 (witness): booking cottage c1 for [day 0, day 3) on the demo store
leaves exactly 3 unavailable records owned by booking b1, and the re-check
reports the range unavailable. -/
theorem createBooking_reserves_three_nights_witness :
    (demoDB2.availability.filter
        (inRangePred demoRequest.cottageId demoRequest.checkInDate
          demoRequest.checkOutDate)).length = 3 ∧
    (∀ r ∈ demoDB2.availability.filter
        (inRangePred demoRequest.cottageId demoRequest.checkInDate
          demoRequest.checkOutDate),
      r.isAvailable = false ∧ r.bookingId = some demoBooking.id) ∧
    (checkAvailability demoDB2 demoRequest.cottageId demoRequest.checkInDate
        demoRequest.checkOutDate).isAvailable = false :=
  createBooking_reserves_three_nights demoDB demoRequest "b1" 7 demoBooking
    demoDB2 (by decide) (by decide) (by decide) (by rfl)

/-- C9: the observed two-phase design loses the race between two overlapping
one-night requests for cottage c1: both availability checks pass against the
initial store (the check reads the same pre-reservation state for both
calls), both commits then succeed because `createBooking` itself never
re-checks, and the final store holds two unavailable records for cottage c1
on day 0 owned by the two different bookings — a double-booking, where the
claim requires exactly one success and one conflict. -/
theorem concurrent_createBooking_double_booking :
    (checkAvailability demoDB oneNightRequest.cottageId
        oneNightRequest.checkInDate oneNightRequest.checkOutDate).isAvailable
      = true ∧
    isOkResult (createBooking demoDB oneNightRequest "bookingA" 0).1 = true ∧
    isOkResult (createBooking
        (createBooking demoDB oneNightRequest "bookingA" 0).2
        oneNightRequest "bookingB" 0).1 = true ∧
    ((createBooking (createBooking demoDB oneNightRequest "bookingA" 0).2
          oneNightRequest "bookingB" 0).2.availability.filter
        (conflictPred "c1" 0 86400000)).map (fun r => r.bookingId) =
      [some "bookingA", some "bookingB"] := by decide

end VillageMachaan
